import Mathlib

/-! Verification development for the aria backend (FastAPI + DynamoDB + Postgres
drug index).  The Python handlers and CRUD functions of `backend/app` are
shallowly embedded as executable Lean definitions: DynamoDB tables become
lists of items, external query results become explicit parameters, and
HTTP failures become an explicit error type.  Theorems at the end settle
the specification claims against these definitions.
-/

set_option autoImplicit false

namespace Aria

/-- Whitespace characters stripped by the Python `str.strip()` method (ASCII subset;
the repository only ever feeds ASCII text through these paths). -/
def isPyWs (c : Char) : Bool :=
  c = ' ' || c = '\t' || c = '\n' || c = '\r' || c = '\x0b' || c = '\x0c'

/-- Python `s.strip()`: drop leading and trailing whitespace. -/
def pyStrip (s : String) : String :=
  String.mk (((s.toList.dropWhile isPyWs).reverse.dropWhile isPyWs).reverse)

/-- Helper for `pySplit`: walk the characters, accumulating the current word. -/
def pySplitAux : List Char → List Char → List String
  | [], cur => if cur.isEmpty then [] else [String.mk cur.reverse]
  | c :: rest, cur =>
    if isPyWs c then
      if cur.isEmpty then pySplitAux rest []
      else String.mk cur.reverse :: pySplitAux rest []
    else pySplitAux rest (c :: cur)

/-- Python `s.split()` with no argument: split on whitespace runs, discarding
empty tokens. -/
def pySplit (s : String) : List String :=
  pySplitAux s.toList []

/-- An HTTP error as raised via `HTTPException(status_code, detail)`. -/
structure HttpError where
  status : Nat
  detail : String
  deriving DecidableEq, Repr

/-! Medication normalization (`create_prescription`, prescriptions.py 44-66)

`MedicationItem` is the pydantic request model (models.py 17-33).  The JSON
level is `MedicationItemIn`: a missing `system` key is filled by the pydantic
field default `"http://snomed.info/sct"` during validation, producing the
dict the handler works on (`MedicationItemDict`, i.e. `med.dict(by_alias=True)`). -/

/-- JSON-level medication item as submitted by the client; `none` means the
key is absent from the request body. -/
structure MedicationItemIn where
  system : Option String := none
  code : Option String := none
  display : Option String := none
  original_input : Option String := none
  name : Option String := none
  dosage : String
  frequency : String
  duration : String
  instructions : Option String := none
  deriving DecidableEq, Repr

/-- Medication item after pydantic validation, as returned by
`med.dict(by_alias=True)`: `system` has received its field default when the
key was absent. -/
structure MedicationItemDict where
  system : String
  code : Option String := none
  display : Option String := none
  original_input : Option String := none
  name : Option String := none
  dosage : String
  frequency : String
  duration : String
  instructions : Option String := none
  deriving DecidableEq, Repr

/-- Pydantic validation of a `MedicationItem` (models.py 17-33): the only
field with a non-`None` default is `system = "http://snomed.info/sct"`. -/
def parseMedicationItem (m : MedicationItemIn) : MedicationItemDict :=
  { system := m.system.getD "http://snomed.info/sct"
    code := m.code
    display := m.display
    original_input := m.original_input
    name := m.name
    dosage := m.dosage
    frequency := m.frequency
    duration := m.duration
    instructions := m.instructions }

/-- Stored medication item after server-side normalization: the four coding
fields are definite strings (the handler assigns them unconditionally). -/
structure NormalizedMed where
  system : String
  code : String
  display : String
  original_input : String
  name : Option String := none
  dosage : String
  frequency : String
  duration : String
  instructions : Option String := none
  deriving DecidableEq, Repr

/-- The normalization loop body of `create_prescription`
(prescriptions.py 46-66), applied to one `med.dict(by_alias=True)` value. -/
def normalize_medication (m : MedicationItemDict) : NormalizedMed :=
  let code := pyStrip (m.code.getD "")
  let system := pyStrip m.system
  let display := pyStrip (m.display.getD "")
  let original_input := pyStrip (m.original_input.getD "")
  let code := if code = "" then "UNMAPPED" else code
  let system :=
    if system = "" then
      if code = "UNMAPPED" then "UNMAPPED" else "http://snomed.info/sct"
    else system
  let display :=
    if display = "" then
      if original_input ≠ "" then original_input else m.name.getD ""
    else display
  let original_input :=
    if original_input ≠ "" then original_input
    else if code = "UNMAPPED" then display else original_input
  { system := system
    code := code
    display := display
    original_input := original_input
    name := m.name
    dosage := m.dosage
    frequency := m.frequency
    duration := m.duration
    instructions := m.instructions }

/-! User store model (crud.py)

DynamoDB is schemaless; the application only ever reads and writes a fixed
set of attribute names, so an item is modelled as one record with every such
attribute optional (absent attribute = `none`).  The primary key `userId` is
always present.  A table is the list of its items in storage order; the
`Index-cognitoSub` GSI query is modelled as the first list element matching
the key condition. -/

/-- A DynamoDB item of the Users/Patients/Doctors tables. -/
structure Item where
  userId : String
  cognitoSub : Option String := none
  phoneNumber : Option String := none
  email : Option String := none
  roles : List String := []
  firstName : Option String := none
  middleName : Option String := none
  lastName : Option String := none
  abhaId : Option String := none
  status : Option String := none
  dateOfBirth : Option String := none
  sexAssignedAtBirth : Option String := none
  genderIdentity : Option String := none
  bloodType : Option String := none
  licenseNumber : Option String := none
  specialization : Option String := none
  qualifications : Option (List String) := none
  clinicAddress : Option String := none
  createdAt : Option String := none
  updatedAt : Option String := none
  deriving DecidableEq, Repr

/-- The three user-profile tables. -/
structure Db where
  users : List Item
  patients : List Item
  doctors : List Item
  deriving DecidableEq, Repr

/-- Model of `put_item`: full replace by primary key, inserting when absent. -/
def put_item (table : List Item) (item : Item) : List Item :=
  if table.any (fun it => it.userId = item.userId) then
    table.map (fun it => if it.userId = item.userId then item else it)
  else table ++ [item]

/-- Model of `update_item` with a SET expression: apply `f` to the existing item, or
to a fresh item holding only the key when the item does not exist yet
(DynamoDB upsert semantics). -/
def update_item (table : List Item) (key : String) (f : Item → Item) : List Item :=
  if table.any (fun it => it.userId = key) then
    table.map (fun it => if it.userId = key then f it else it)
  else table ++ [f { userId := key }]

/-- Model of `db_get_user_by_id` (crud.py 13-22): Users-table `get_item` by key. -/
def db_get_user_by_id (users : List Item) (user_id : String) : Option Item :=
  users.find? (fun it => it.userId = user_id)

/-- Model of `db_get_user_by_cognito_sub` (crud.py 24-36): GSI query on `cognitoSub`,
returning `items[0]` when non-empty. -/
def db_get_user_by_cognito_sub (users : List Item) (cognito_sub : String) : Option Item :=
  users.find? (fun it => it.cognitoSub = some cognito_sub)

/-- Nested patient sub-profile of the assembled full profile. -/
structure PatientProfileOut where
  status : String
  date_of_birth : Option String := none
  sex_assigned_at_birth : Option String := none
  gender_identity : Option String := none
  blood_type : Option String := none
  deriving DecidableEq, Repr

/-- Nested doctor sub-profile of the assembled full profile. -/
structure DoctorProfileOut where
  status : String
  license_number : Option String := none
  specialization : Option String := none
  qualifications : Option (List String) := none
  clinic_address : Option String := none
  deriving DecidableEq, Repr

/-- The structured profile assembled by `db_get_full_user_profile`. -/
structure FullProfile where
  internal_user_id : String
  cognito_sub : Option String := none
  phone_number : Option String := none
  first_name : Option String := none
  last_name : Option String := none
  email : Option String := none
  roles : List String := []
  patient_profile : Option PatientProfileOut := none
  doctor_profile : Option DoctorProfileOut := none
  deriving DecidableEq, Repr

/-- Model of `db_get_full_user_profile` (crud.py 38-85): fetch core user, then nest the
role-specific rows.  A missing sub-profile row leaves the nested profile
`none`; a present row with no `status` attribute defaults it to
`PROFILE_INCOMPLETE`. -/
def db_get_full_user_profile (s : Db) (user_id : String) : Option FullProfile :=
  match db_get_user_by_id s.users user_id with
  | none => none
  | some user =>
    let base : FullProfile :=
      { internal_user_id := user.userId
        cognito_sub := user.cognitoSub
        phone_number := user.phoneNumber
        first_name := user.firstName
        last_name := user.lastName
        email := user.email
        roles := user.roles }
    let base :=
      if "PATIENT" ∈ base.roles then
        match s.patients.find? (fun it => it.userId = user_id) with
        | some pd =>
          let pp : PatientProfileOut :=
            { status := pd.status.getD "PROFILE_INCOMPLETE"
              date_of_birth := pd.dateOfBirth
              sex_assigned_at_birth := pd.sexAssignedAtBirth
              gender_identity := pd.genderIdentity
              blood_type := pd.bloodType }
          { base with patient_profile := some pp }
        | none => base
      else base
    if "DOCTOR" ∈ base.roles then
      match s.doctors.find? (fun it => it.userId = user_id) with
      | some dd =>
        let dp : DoctorProfileOut :=
          { status := dd.status.getD "PROFILE_INCOMPLETE"
            license_number := dd.licenseNumber
            specialization := dd.specialization
            qualifications := dd.qualifications
            clinic_address := dd.clinicAddress }
        some { base with doctor_profile := some dp }
      | none => some base
    else some base

/-! Identity resolution (`db_find_or_create_user_by_cognito_sub`, crud.py 87-158)

The generated `uuid.uuid4()` and `datetime.now()` values are passed in as the
`fresh_id` and `ts` parameters.  A `put_item` carrying
`ConditionExpression="attribute_not_exists(userId)"` raises a
`ConditionalCheckFailedException` when the key already exists, which the
Python propagates; that outcome is the `.error` case. -/

/-- A conditional `put_item` guarded by `attribute_not_exists(userId)`. -/
def put_item_if_absent (table : List Item) (item : Item) :
    Except String (List Item) :=
  if table.any (fun it => it.userId = item.userId) then
    .error "ConditionalCheckFailedException"
  else .ok (table ++ [item])

/-- The fresh `PROFILE_INCOMPLETE` sub-profile row written for a newly
attached role (crud.py 114, 120, 150, 154). -/
def incompleteProfileItem (user_id ts : String) : Item :=
  { userId := user_id, createdAt := some ts, updatedAt := some ts,
    status := some "PROFILE_INCOMPLETE" }

/-- The Users-table `update_item` assignment persisting an extended role
list (crud.py 104-109): `SET #r = :r, updatedAt = :ua`. -/
def role_update (roles : List String) (ts : String) (it : Item) : Item :=
  { it with roles := roles, updatedAt := some ts }

/-- The main user record created for a first-seen subject (crud.py 132-144). -/
def new_user_item (cognito_sub : String) (phone email : Option String)
    (app_type fresh_id ts : String) : Item :=
  { userId := fresh_id
    cognitoSub := some cognito_sub
    phoneNumber := phone
    email := email
    createdAt := some ts
    updatedAt := some ts
    roles := [app_type]
    firstName := none
    middleName := none
    lastName := none
    abhaId := none }

/-- Model of `db_find_or_create_user_by_cognito_sub` (crud.py 87-158). -/
def db_find_or_create_user_by_cognito_sub (s : Db) (cognito_sub : String)
    (phone email : Option String) (app_type : String) (fresh_id ts : String) :
    Except String (Item × Db) :=
  match db_get_user_by_cognito_sub s.users cognito_sub with
  | some user =>
    if app_type ∈ user.roles then .ok (user, s)
    else
      let user := { user with roles := user.roles ++ [app_type] }
      let users := update_item s.users user.userId (role_update user.roles ts)
      let s := { s with users := users }
      if app_type = "PATIENT" then
        match put_item_if_absent s.patients (incompleteProfileItem user.userId ts) with
        | .ok patients => .ok (user, { s with patients := patients })
        | .error e => .error e
      else if app_type = "DOCTOR" then
        match put_item_if_absent s.doctors (incompleteProfileItem user.userId ts) with
        | .ok doctors => .ok (user, { s with doctors := doctors })
        | .error e => .error e
      else .ok (user, s)
  | none =>
    let new_user := new_user_item cognito_sub phone email app_type fresh_id ts
    let s := { s with users := put_item s.users new_user }
    if app_type = "PATIENT" then
      .ok (new_user, { s with patients := put_item s.patients (incompleteProfileItem fresh_id ts) })
    else if app_type = "DOCTOR" then
      .ok (new_user, { s with doctors := put_item s.doctors (incompleteProfileItem fresh_id ts) })
    else .ok (new_user, s)

/-! Partial profile update (`db_update_user_profile`, crud.py 160-298)

The embedding reproduces the control flow of the function as written, including
two indentation accidents in the source:

* the `try: patients_table.update_item(**update_args)` at crud.py 251-256
  sits at function level (column 4), outside the `if "PATIENT" in
  user_roles:` block, so it runs on every call using whatever
  `update_args` currently holds — the Users-table arguments when no patient
  update was built, and no binding at all (a `NameError`, caught by the
  `except` and turned into `return None`) when neither was built;
* the `return None` at crud.py 294 sits at column 8, inside
  `if "DOCTOR" in user_roles:` but outside the `try`/`except`, so every
  caller with the DOCTOR role receives `None`.

Store writes themselves are modelled as always succeeding (DynamoDB
`update_item` upserts); `writes` records which table each call touched and
the SET fragments of the expression it used. -/

/-- The partial-update request body (`ProfileData`, models.py 75-94). -/
structure ProfileData where
  first_name : Option String := none
  middle_name : Option String := none
  last_name : Option String := none
  email : Option String := none
  abha_id : Option String := none
  phone_number : Option String := none
  date_of_birth : Option String := none
  sex_assigned_at_birth : Option String := none
  gender_identity : Option String := none
  blood_type : Option String := none
  license_number : Option String := none
  specialization : Option String := none
  qualifications : Option (List String) := none
  clinic_address : Option String := none
  deriving DecidableEq, Repr

/-- One observed table write: which table, and the SET fragments of the
update expression used (the `user_updates` / `patient_updates` /
`doctor_updates` string lists of the source). -/
inductive WriteOp where
  | usersWrite (fields : List String)
  | patientsWrite (fields : List String)
  | doctorsWrite (fields : List String)
  deriving DecidableEq, Repr

/-- The `update_args` dict the source rebinds across its three sections:
target key, the SET fragments, and the attribute assignment it performs. -/
structure UpdateArgs where
  key : String
  fields : List String
  apply : Item → Item

/-- The `user_updates` fragment list (crud.py 178-199). -/
def user_updates_of (profile : ProfileData) : List String :=
  (if profile.first_name ≠ none then ["firstName = :fn"] else []) ++
  (if profile.middle_name ≠ none then ["middleName = :mn"] else []) ++
  (if profile.last_name ≠ none then ["lastName = :ln"] else []) ++
  (if profile.email ≠ none then ["email = :e"] else []) ++
  (if profile.abha_id ≠ none then ["abhaId = :a"] else []) ++
  (if profile.phone_number ≠ none then ["phoneNumber = :pn"] else [])

/-- Attribute assignment of the Users-table SET expression (plus the always
present `updatedAt = :ua`). -/
def applyUserSets (profile : ProfileData) (ts : String) (it : Item) : Item :=
  let it := match profile.first_name with
    | some v => { it with firstName := some v } | none => it
  let it := match profile.middle_name with
    | some v => { it with middleName := some v } | none => it
  let it := match profile.last_name with
    | some v => { it with lastName := some v } | none => it
  let it := match profile.email with
    | some v => { it with email := some v } | none => it
  let it := match profile.abha_id with
    | some v => { it with abhaId := some v } | none => it
  let it := match profile.phone_number with
    | some v => { it with phoneNumber := some v } | none => it
  { it with updatedAt := some ts }

/-- The `patient_updates` fragment list (crud.py 227-238). -/
def patient_updates_of (profile : ProfileData) : List String :=
  (if profile.date_of_birth ≠ none then ["dateOfBirth = :dob"] else []) ++
  (if profile.sex_assigned_at_birth ≠ none then ["sexAssignedAtBirth = :sab"] else []) ++
  (if profile.gender_identity ≠ none then ["genderIdentity = :gi"] else []) ++
  (if profile.blood_type ≠ none then ["bloodType = :bt"] else [])

/-- Attribute assignment of the Patients-table SET expression, including the
unconditional `updatedAt = :ua, #s = :st` promotion to `ACTIVE`. -/
def applyPatientSets (profile : ProfileData) (ts : String) (it : Item) : Item :=
  let it := match profile.date_of_birth with
    | some v => { it with dateOfBirth := some v } | none => it
  let it := match profile.sex_assigned_at_birth with
    | some v => { it with sexAssignedAtBirth := some v } | none => it
  let it := match profile.gender_identity with
    | some v => { it with genderIdentity := some v } | none => it
  let it := match profile.blood_type with
    | some v => { it with bloodType := some v } | none => it
  { it with updatedAt := some ts, status := some "ACTIVE" }

/-- The `doctor_updates` fragment list (crud.py 265-276). -/
def doctor_updates_of (profile : ProfileData) : List String :=
  (if profile.license_number ≠ none then ["licenseNumber = :ln"] else []) ++
  (if profile.specialization ≠ none then ["specialization = :sp"] else []) ++
  (if profile.qualifications ≠ none then ["qualifications = :qu"] else []) ++
  (if profile.clinic_address ≠ none then ["clinicAddress = :ca"] else [])

/-- Attribute assignment of the Doctors-table SET expression, including the
unconditional `updatedAt = :ua, #s = :st` promotion to `ACTIVE`. -/
def applyDoctorSets (profile : ProfileData) (ts : String) (it : Item) : Item :=
  let it := match profile.license_number with
    | some v => { it with licenseNumber := some v } | none => it
  let it := match profile.specialization with
    | some v => { it with specialization := some v } | none => it
  let it := match profile.qualifications with
    | some v => { it with qualifications := some v } | none => it
  let it := match profile.clinic_address with
    | some v => { it with clinicAddress := some v } | none => it
  { it with updatedAt := some ts, status := some "ACTIVE" }

/-- Outcome of `db_update_user_profile`: the returned value, the post-call
store, and the table writes performed, in order. -/
structure UpdateOutcome where
  result : Option FullProfile
  db : Db
  writes : List WriteOp

/-- Model of `db_update_user_profile` (crud.py 160-298), embedded with its actual
(mis-indented) control flow; see the section comment above. -/
def db_update_user_profile (s : Db) (user_id : String) (profile : ProfileData)
    (ts : String) : UpdateOutcome :=
  match db_get_user_by_id s.users user_id with
  | none => { result := none, db := s, writes := [] }
  | some user =>
    let user_roles := user.roles
    let user_updates := user_updates_of profile
    let update_args : Option UpdateArgs :=
      if user_updates ≠ [] then
        some { key := user_id, fields := user_updates, apply := applyUserSets profile ts }
      else none
    let s1 :=
      if user_updates ≠ [] then
        { s with users := update_item s.users user_id (applyUserSets profile ts) }
      else s
    let log1 : List WriteOp :=
      if user_updates ≠ [] then [.usersWrite user_updates] else []
    let patient_updates := patient_updates_of profile
    let update_args :=
      if "PATIENT" ∈ user_roles ∧ patient_updates ≠ [] then
        some { key := user_id, fields := patient_updates, apply := applyPatientSets profile ts }
      else update_args
    match update_args with
    | none =>
      { result := none, db := s1, writes := log1 }
    | some args =>
      let s2 := { s1 with patients := update_item s1.patients args.key args.apply }
      let log2 := log1 ++ [.patientsWrite args.fields]
      if "DOCTOR" ∈ user_roles then
        let doctor_updates := doctor_updates_of profile
        let s3 :=
          if doctor_updates ≠ [] then
            { s2 with doctors := update_item s2.doctors user_id (applyDoctorSets profile ts) }
          else s2
        let log3 := log2 ++ (if doctor_updates ≠ [] then [.doctorsWrite doctor_updates] else [])
        { result := none, db := s3, writes := log3 }
      else
        { result := db_get_full_user_profile s2 user_id, db := s2, writes := log2 }

/-! Prescription lifecycle (routers/prescriptions.py)

The prescriptions table is a list of records keyed by `prescriptionId`; the
two GSI queries (`doctorId-createdAt-index`, `patientId-createdAt-index`)
are modelled as filters over that list.  The GSI sort order (by `createdAt`)
is not reproduced; none of the verified properties depend on result order.
`HTTPException` subclasses `Exception`, so in handlers whose `try` block is
wrapped by a bare `except Exception`, an exception raised inside the block —
including the 404/403/400 raised by the handler itself — is replaced by its 500
response; the embeddings keep that structure. -/

/-- A stored prescription record. -/
structure Prescription where
  prescriptionId : String
  patientId : String
  doctorId : String
  createdAt : String
  expiresAt : String
  status : String
  diagnosis : Option String := none
  medications : List NormalizedMed := []
  deriving DecidableEq, Repr

/-- Model of `cancel_prescription` (prescriptions.py 173-206).  Returns the updated
record and table, or the HTTP error the caller observes.  The inner
`match`/`if` chain is the `try` body; its error is then replaced by the 500
of the `except Exception` clause (prescriptions.py 205-206). -/
def cancel_prescription (table : List Prescription) (requester : Option Item)
    (prescription_id : String) : Except HttpError (Prescription × List Prescription) :=
  match requester with
  | none => .error { status := 401, detail := "Unauthorized" }
  | some requester =>
    let doctor_id := requester.userId
    let body : Except HttpError (Prescription × List Prescription) :=
      match table.find? (fun p => p.prescriptionId = prescription_id) with
      | none => .error { status := 404, detail := "Prescription not found." }
      | some p =>
        if p.doctorId ≠ doctor_id then
          .error { status := 403, detail := "Only the issuing doctor can cancel this prescription." }
        else if p.status ≠ "ACTIVE" then
          .error { status := 400,
                   detail := "Prescription is already in \u0027" ++ p.status ++ "\u0027 state." }
        else
          let updated := { p with status := "CANCELLED" }
          .ok (updated, table.map (fun q =>
            if q.prescriptionId = prescription_id then updated else q))
    match body with
    | .ok r => .ok r
    | .error _ => .error { status := 500, detail := "Could not cancel prescription." }

/-- A prescription response enriched with patient/doctor names
(`PrescriptionResponse`, models.py 44-54). -/
structure PrescriptionResponse where
  prescriptionId : String
  patientId : String
  doctorId : String
  createdAt : String
  expiresAt : String
  status : String
  diagnosis : Option String := none
  medications : List NormalizedMed := []
  patientFirstName : Option String := none
  patientLastName : Option String := none
  doctorFirstName : Option String := none
  doctorLastName : Option String := none
  deriving DecidableEq, Repr

/-- One step of the dict comprehension
`dict((p["prescriptionId"], p) for p in all_prescriptions)`: an existing key keeps
its position but its value is overwritten; a new key is appended. -/
def dictInsert (acc : List Prescription) (p : Prescription) : List Prescription :=
  if acc.any (fun q => q.prescriptionId = p.prescriptionId) then
    acc.map (fun q => if q.prescriptionId = p.prescriptionId then p else q)
  else acc ++ [p]

/-- Values of the dict comprehension (prescriptions.py 117): last value
per key, keys in first-insertion order. -/
def dictValues (l : List Prescription) : List Prescription :=
  l.foldl dictInsert []

/-- Name enrichment of one listed prescription (prescriptions.py 123-140). -/
def enrich (users : List Item) (p : Prescription) : PrescriptionResponse :=
  let patient_user := if p.patientId ≠ "" then db_get_user_by_id users p.patientId else none
  let doctor_user := if p.doctorId ≠ "" then db_get_user_by_id users p.doctorId else none
  { prescriptionId := p.prescriptionId
    patientId := p.patientId
    doctorId := p.doctorId
    createdAt := p.createdAt
    expiresAt := p.expiresAt
    status := p.status
    diagnosis := p.diagnosis
    medications := p.medications
    patientFirstName := patient_user.bind (fun u => u.firstName)
    patientLastName := patient_user.bind (fun u => u.lastName)
    doctorFirstName := doctor_user.bind (fun u => u.firstName)
    doctorLastName := doctor_user.bind (fun u => u.lastName) }

/-- Model of `list_prescriptions` (prescriptions.py 87-145), success path: the two
role-conditional GSI queries, the dict-based de-duplication, and the name
enrichment.  `roles` is the role list of the caller from the assembled profile. -/
def list_prescriptions (table : List Prescription) (users : List Item)
    (roles : List String) (user_id : String) : List PrescriptionResponse :=
  let all_prescriptions :=
    (if "DOCTOR" ∈ roles then table.filter (fun p => p.doctorId = user_id) else []) ++
    (if "PATIENT" ∈ roles then table.filter (fun p => p.patientId = user_id) else [])
  (dictValues all_prescriptions).map (enrich users)

/-! Session-token verification (`verify_api_token`, security.py 104-134)

`pyjwt_decode` is modelled from the PyJWT library (external to this
repository): `jwt.decode` first parses the token structure, then verifies
the signature, and only then validates claims, checking `exp` before `aud`;
with an `audience` argument, a payload without an `aud` claim raises
`MissingRequiredClaimError`.  All raised classes subclass `PyJWTError`;
`ExpiredSignatureError` and `InvalidAudienceError` are the two the handler
catches specially.  A token is abstracted by whether it parses, whether its
signature verifies against the API secret, and its claims. -/

/-- Claims carried by a session token payload. -/
structure TokenClaims where
  sub : Option String := none
  cognito_sub : Option String := none
  aud : Option String := none
  exp : Option Int := none
  deriving DecidableEq, Repr

/-- An incoming bearer token, abstracted for verification. -/
structure Token where
  wellFormed : Bool
  sigValid : Bool
  claims : TokenClaims
  deriving DecidableEq, Repr

/-- The PyJWT exception classes distinguished by `verify_api_token`. -/
inductive JwtError where
  | decodeError
  | invalidSignature
  | expiredSignature
  | missingAudClaim
  | invalidAudience
  deriving DecidableEq, Repr

/-- PyJWT `jwt.decode(token, secret, algorithms=[...], audience=audience)`:
structure, then signature, then `exp`, then `aud`. -/
def pyjwt_decode (t : Token) (audience : String) (now : Int) :
    Except JwtError TokenClaims :=
  if ¬ t.wellFormed then .error .decodeError
  else if ¬ t.sigValid then .error .invalidSignature
  else
    let expOk : Except JwtError Unit :=
      match t.claims.exp with
      | some e => if e ≤ now then .error .expiredSignature else .ok ()
      | none => .ok ()
    match expOk with
    | .error e => .error e
    | .ok () =>
      match t.claims.aud with
      | none => .error .missingAudClaim
      | some a => if a = audience then .ok t.claims else .error .invalidAudience

/-- The `credentials_exception` of security.py 106-110. -/
def credentials_exception : HttpError :=
  { status := 401, detail := "Could not validate API credentials" }

/-- Model of `verify_api_token` (security.py 104-134).  `users` is the Users table
consulted by the liveness check.  The `credentials_exception` raised inside
the `try` for a missing or unresolvable subject is an `HTTPException`, which
none of the `except pyjwt...` clauses catch, so it propagates unchanged. -/
def verify_api_token (users : List Item) (now : Int) (t : Token) :
    Except HttpError TokenClaims :=
  match pyjwt_decode t "api_access" now with
  | .ok payload =>
    match payload.sub with
    | none => .error credentials_exception
    | some internal_user_id =>
      match db_get_user_by_id users internal_user_id with
      | none => .error credentials_exception
      | some _ => .ok payload
  | .error .expiredSignature =>
    .error { status := 401, detail := "API token has expired" }
  | .error .invalidAudience =>
    .error { status := 401, detail := "Invalid API token audience" }
  | .error _ => .error credentials_exception

/-! Drug search (`search_drugs`, routers/drugs.py 38-139)

The three SQL passes run on an external Postgres instance; their result
row lists are parameters (`rows_token_and` is only queried, hence only
used, when the stripped query splits into at least two whitespace tokens).
The merge loop (drugs.py 102-125) is embedded exactly: skip already-seen
identifiers, append otherwise, and stop as soon as `limit` results are
collected. -/

/-- A row of the `drug_brands` relational table. -/
structure DrugRow where
  identifier : String
  brand_name : String
  generic_identifier : Option String := none
  license_status : Option String := none
  deriving DecidableEq, Repr

/-- The merge loop of `search_drugs` (drugs.py 113-125): `seen` is the set of
emitted identifiers, `results` the accumulator. -/
def mergeLoop : List DrugRow → List String → List DrugRow → Nat → List DrugRow
  | [], _, results, _ => results
  | r :: rest, seen, results, limit =>
    if r.identifier ∈ seen then mergeLoop rest seen results limit
    else
      let results := results ++ [r]
      if limit ≤ results.length then results
      else mergeLoop rest (seen ++ [r.identifier]) results limit

/-- Model of `search_drugs` (drugs.py 38-139), success path: strip and reject an empty
query, run the token-AND pass only for multi-token queries, then merge the
three passes.  `rows_token_and`, `rows_contains` and `rows_fuzzy` are the
rows the three SQL queries would return. -/
def search_drugs (q : String) (limit : Nat)
    (rows_token_and rows_contains rows_fuzzy : List DrugRow) :
    Except HttpError (List DrugRow) :=
  let q := pyStrip q
  if q = "" then .error { status := 400, detail := "Query cannot be empty" }
  else
    let tokens := pySplit q
    let rows_token_and := if 2 ≤ tokens.length then rows_token_and else []
    let merged := rows_token_and ++ rows_contains ++ rows_fuzzy
    .ok (mergeLoop merged [] [] limit)

/-- Reference form of the de-duplication, written from the words of the
specification: keep the first occurrence of every identifier not already in `seen`.
The merge the specification describes is `dedupeByIdentifier []` of the
concatenated passes, truncated to `limit`. -/
def dedupeByIdentifier : List String → List DrugRow → List DrugRow
  | _, [] => []
  | seen, r :: rest =>
    if r.identifier ∈ seen then dedupeByIdentifier seen rest
    else r :: dedupeByIdentifier (seen ++ [r.identifier]) rest

/-! Concrete fixtures used by counterexamples and witnesses -/

/-- A doctor item used as cancel requester. -/
def drItem : Item := { userId := "d1" }

/-- An ACTIVE prescription issued by "d1". -/
def rxActive : Prescription :=
  { prescriptionId := "p1", patientId := "pa1", doctorId := "d1",
    createdAt := "T0", expiresAt := "T9", status := "ACTIVE" }

/-- User store for the C2 scenario: an existing DOCTOR-role user. -/
def dbDoctorOnly : Db :=
  { users := [{ userId := "u1", roles := ["DOCTOR"] }]
    patients := []
    doctors := [{ userId := "u1", status := some "PROFILE_INCOMPLETE" }] }

/-- Partial input for C2: one common field and one doctor field. -/
def profileDoctorUpd : ProfileData :=
  { first_name := some "A", license_number := some "L1" }

/-- User store for the C3 scenario: an existing PATIENT-role user. -/
def dbPatientOnly : Db :=
  { users := [{ userId := "u2", roles := ["PATIENT"] }]
    patients := [{ userId := "u2", status := some "PROFILE_INCOMPLETE" }]
    doctors := [] }

/-- Partial input for C3: a single common field, no patient-specific field. -/
def profileCommonOnly : ProfileData := { first_name := some "A" }

/-- The medication item of the C4 example: name only, no code/system/display. -/
def medNameOnly : MedicationItemIn :=
  { name := some "X", dosage := "500mg", frequency := "1-0-1", duration := "5d" }

/-- A medication dict whose supplied system is whitespace and whose code is
absent, exercising the explicit-empty-system branch. -/
def medBlankSystem : MedicationItemDict :=
  { system := "  ", dosage := "500mg", frequency := "1-0-1", duration := "5d" }

/-! Claims and their settlements. -/

/-- Claim C1, behavior at the failing inputs: cancelling an absent
prescription id answers 500 (not 404), because the 404 raised inside the
`try` block is caught by `except Exception` and replaced; the success path
does transition ACTIVE to CANCELLED and return the updated record; but the
second cancel of the same id answers 500, not the claimed Conflict/400. -/
theorem cancel_prescription_errors_become_500 :
    cancel_prescription [] (some drItem) "p1" =
      .error { status := 500, detail := "Could not cancel prescription." } ∧
    cancel_prescription [rxActive] (some drItem) "p1" =
      .ok ({ rxActive with status := "CANCELLED" },
           [{ rxActive with status := "CANCELLED" }]) ∧
    cancel_prescription [{ rxActive with status := "CANCELLED" }] (some drItem) "p1" =
      .error { status := 500, detail := "Could not cancel prescription." } :=
  ⟨rfl, rfl, rfl⟩

/-- Claim C2, behavior at the failing input: for an existing user holding the
DOCTOR role, with every store write succeeding, `db_update_user_profile`
returns `None` (the mis-indented `return None` at crud.py 294) instead of
the recomputed full profile; the write log shows all three tables were in
fact written. -/
theorem update_profile_doctor_returns_none :
    (db_update_user_profile dbDoctorOnly "u1" profileDoctorUpd "T1").result = none ∧
    (db_update_user_profile dbDoctorOnly "u1" profileDoctorUpd "T1").writes =
      [.usersWrite ["firstName = :fn"],
       .patientsWrite ["firstName = :fn"],
       .doctorsWrite ["licenseNumber = :ln"]] :=
  ⟨rfl, rfl⟩

/-- Claim C3, behavior at the failing input: for a PATIENT-role user whose
partial input contains no patient-specific field, the call still writes the
Patients table — with the Users-table SET expression — because the
`try: patients_table.update_item(**update_args)` at crud.py 251 sits outside
the `if "PATIENT" in user_roles:` block; the stored patient row changes. -/
theorem update_profile_touches_patients_without_patient_fields :
    patient_updates_of profileCommonOnly = [] ∧
    (db_update_user_profile dbPatientOnly "u2" profileCommonOnly "T1").writes =
      [.usersWrite ["firstName = :fn"], .patientsWrite ["firstName = :fn"]] ∧
    (db_update_user_profile dbPatientOnly "u2" profileCommonOnly "T1").db.patients ≠
      dbPatientOnly.patients :=
  ⟨rfl, rfl, by decide⟩

/-- Claim C4, counterexample: for the medication item
`{name:"X", dosage:"500mg", frequency:"1-0-1", duration:"5d"}` with no
code/system/display keys, the stored system is not `"UNMAPPED"` — pydantic
fills the omitted `system` with its field default before the normalization
in the handler runs. -/
theorem medication_omitted_system_not_unmapped :
    (normalize_medication (parseMedicationItem medNameOnly)).system ≠ "UNMAPPED" := by
  decide

/-- Claim C4 as amended: the example item normalizes to code `"UNMAPPED"`,
system `"http://snomed.info/sct"`, display `"X"`, original_input `"X"`;
when the supplied coding system is empty after trimming, it is set to
`"UNMAPPED"` exactly when the normalized code is `"UNMAPPED"` and to the
SNOMED URI otherwise; and an omitted coding system is always defaulted to
the SNOMED URI by the pydantic model, regardless of the code. -/
theorem medication_system_normalization :
    normalize_medication (parseMedicationItem medNameOnly) =
      { system := "http://snomed.info/sct", code := "UNMAPPED", display := "X",
        original_input := "X", name := some "X", dosage := "500mg",
        frequency := "1-0-1", duration := "5d" } ∧
    (∀ m : MedicationItemDict, pyStrip m.system = "" →
      (normalize_medication m).system =
        (if (normalize_medication m).code = "UNMAPPED" then "UNMAPPED"
         else "http://snomed.info/sct")) ∧
    (∀ j : MedicationItemIn, j.system = none →
      (normalize_medication (parseMedicationItem j)).system = "http://snomed.info/sct") := by
  refine ⟨by decide, ?_, ?_⟩
  · intro m h
    by_cases hc : pyStrip (m.code.getD "") = "" <;>
      simp [normalize_medication, h, hc]
  · intro j h
    have hs : pyStrip "http://snomed.info/sct" = "http://snomed.info/sct" := by decide
    have hne : pyStrip "http://snomed.info/sct" ≠ "" := by decide
    simp [normalize_medication, parseMedicationItem, h, hs, hne]

/-- Witness for `medication_system_normalization`: the explicit-empty-system
rule applied at `medBlankSystem`, and the omitted-system default applied at
`medNameOnly`. -/
theorem medication_system_normalization_witness :
    ((normalize_medication medBlankSystem).system =
      (if (normalize_medication medBlankSystem).code = "UNMAPPED" then "UNMAPPED"
       else "http://snomed.info/sct")) ∧
    (normalize_medication (parseMedicationItem medNameOnly)).system = "http://snomed.info/sct" :=
  ⟨medication_system_normalization.2.1 medBlankSystem (by decide),
   medication_system_normalization.2.2 medNameOnly rfl⟩

/-- A Users table containing only user "u1". -/
def usersOne : List Item := [{ userId := "u1" }]

/-- A well-formed, correctly signed token for "u1", audience `api_access`,
expiring at 200. -/
def tokenGood : Token :=
  { wellFormed := true, sigValid := true,
    claims := { sub := some "u1", aud := some "api_access", exp := some 200 } }

/-- The same token with an invalid signature and an expiry in the past. -/
def tokenExpiredBadSig : Token :=
  { wellFormed := true, sigValid := false,
    claims := { sub := some "u1", aud := some "api_access", exp := some 50 } }

/-- A correctly signed token whose expiry is in the past. -/
def tokenExpiredGoodSig : Token :=
  { wellFormed := true, sigValid := true,
    claims := { sub := some "u1", aud := some "api_access", exp := some 50 } }

/-- A correctly signed, unexpired token with the right audience but no
`sub` claim. -/
def tokenNoSub : Token :=
  { wellFormed := true, sigValid := true,
    claims := { sub := none, aud := some "api_access", exp := some 200 } }

/-- Claim C5, counterexample: a token that is both expired and badly signed
fails with the generic invalid-credentials error, not the expired error —
PyJWT verifies the signature before validating `exp`, so the expired error
is not produced "regardless of signature validity". -/
theorem verify_expired_bad_signature_is_generic :
    verify_api_token usersOne 100 tokenExpiredBadSig = .error credentials_exception ∧
    credentials_exception ≠ { status := 401, detail := "API token has expired" } :=
  ⟨rfl, by decide⟩

/-- Claim C5 as amended: an expired, correctly signed and well-formed token
fails with the expired error; a correctly signed, unexpired token with a
wrong audience fails with the bad-audience error; a malformed or
badly-signed token fails with the generic invalid error (even when also
expired); and a structurally valid, unexpired, correctly signed token whose
subject does not resolve to an existing User fails with that same generic
error (identical status and detail). -/
theorem verify_api_token_failure_taxonomy :
    (∀ (users : List Item) (now : Int) (t : Token) (e : Int),
      t.wellFormed = true → t.sigValid = true → t.claims.exp = some e → e ≤ now →
      verify_api_token users now t =
        .error { status := 401, detail := "API token has expired" }) ∧
    (∀ (users : List Item) (now : Int) (t : Token) (a : String),
      t.wellFormed = true → t.sigValid = true →
      (∀ e, t.claims.exp = some e → now < e) →
      t.claims.aud = some a → a ≠ "api_access" →
      verify_api_token users now t =
        .error { status := 401, detail := "Invalid API token audience" }) ∧
    (∀ (users : List Item) (now : Int) (t : Token),
      t.wellFormed = false ∨ t.sigValid = false →
      verify_api_token users now t = .error credentials_exception) ∧
    (∀ (users : List Item) (now : Int) (t : Token) (uid : String),
      t.wellFormed = true → t.sigValid = true →
      (∀ e, t.claims.exp = some e → now < e) →
      t.claims.aud = some "api_access" → t.claims.sub = some uid →
      db_get_user_by_id users uid = none →
      verify_api_token users now t = .error credentials_exception) := by
  refine ⟨?_, ?_, ?_, ?_⟩
  · intro users now t e hw hs he hle
    simp [verify_api_token, pyjwt_decode, hw, hs, he, hle]
  · intro users now t a hw hs hexp haud hne
    match hexp2 : t.claims.exp with
    | some e =>
      have := hexp e hexp2
      simp [verify_api_token, pyjwt_decode, hw, hs, hexp2, haud, hne, Int.not_le.mpr this]
    | none =>
      simp [verify_api_token, pyjwt_decode, hw, hs, hexp2, haud, hne]
  · intro users now t h
    rcases h with h | h
    · simp [verify_api_token, pyjwt_decode, h]
    · by_cases hw : t.wellFormed = true
      · simp [verify_api_token, pyjwt_decode, hw, h]
      · simp [verify_api_token, pyjwt_decode, hw]
  · intro users now t uid hw hs hexp haud hsub hdb
    match hexp2 : t.claims.exp with
    | some e =>
      have := hexp e hexp2
      simp [verify_api_token, pyjwt_decode, hw, hs, hexp2, haud, hsub, hdb,
        Int.not_le.mpr this]
    | none =>
      simp [verify_api_token, pyjwt_decode, hw, hs, hexp2, haud, hsub, hdb]

/-- Witness for `verify_api_token_failure_taxonomy`: the expired rule applied
to a concrete expired, correctly signed token, and the unresolvable-subject
rule applied to a concrete valid token over an empty Users table. -/
theorem verify_api_token_failure_taxonomy_witness :
    verify_api_token usersOne 100 tokenExpiredGoodSig =
      .error { status := 401, detail := "API token has expired" } ∧
    verify_api_token [] 100 tokenGood = .error credentials_exception :=
  ⟨verify_api_token_failure_taxonomy.1 usersOne 100 tokenExpiredGoodSig 50 rfl rfl rfl
      (by decide),
   verify_api_token_failure_taxonomy.2.2.2 [] 100 tokenGood "u1" rfl rfl
      (by intro e he; simp [tokenGood] at he; omega) rfl rfl rfl⟩

/-- Claim C10: a correctly signed, unexpired token with the `api_access`
audience but no `sub` claim is rejected with the same generic 401
invalid-credentials error, and a successful verification always returns a
payload whose `sub` resolves to an existing User. -/
theorem verify_api_token_requires_resolvable_sub :
    (∀ (users : List Item) (now : Int) (t : Token),
      t.wellFormed = true → t.sigValid = true →
      (∀ e, t.claims.exp = some e → now < e) →
      t.claims.aud = some "api_access" → t.claims.sub = none →
      verify_api_token users now t = .error credentials_exception) ∧
    (∀ (users : List Item) (now : Int) (t : Token) (p : TokenClaims),
      verify_api_token users now t = .ok p →
      ∃ uid, p.sub = some uid ∧ (db_get_user_by_id users uid).isSome) := by
  constructor
  · intro users now t hw hs hexp haud hsub
    match hexp2 : t.claims.exp with
    | some e =>
      have := hexp e hexp2
      simp [verify_api_token, pyjwt_decode, hw, hs, hexp2, haud, hsub,
        Int.not_le.mpr this]
    | none =>
      simp [verify_api_token, pyjwt_decode, hw, hs, hexp2, haud, hsub]
  · intro users now t p h
    unfold verify_api_token at h
    split at h
    any_goals simp at h
    next payload hdec =>
      rcases hsub : payload.sub with _ | uid
      · rw [hsub] at h
        simp at h
      · rw [hsub] at h
        simp only [] at h
        rcases hdb : db_get_user_by_id users uid with _ | u
        · rw [hdb] at h
          simp at h
        · rw [hdb] at h
          simp at h
          subst h
          exact ⟨uid, hsub, by simp [hdb]⟩

/-- Witness for `verify_api_token_requires_resolvable_sub`: the missing-`sub`
rule applied to a concrete token, and the success-shape rule applied to the
verification of a good token. -/
theorem verify_api_token_requires_resolvable_sub_witness :
    verify_api_token usersOne 100 tokenNoSub = .error credentials_exception ∧
    ∃ uid, (tokenGood.claims).sub = some uid ∧ (db_get_user_by_id usersOne uid).isSome :=
  ⟨verify_api_token_requires_resolvable_sub.1 usersOne 100 tokenNoSub rfl rfl
      (by intro e he; simp [tokenNoSub] at he; omega) rfl rfl,
   verify_api_token_requires_resolvable_sub.2 usersOne 100 tokenGood tokenGood.claims rfl⟩

/-- Drug rows used by the search witness. -/
def rowParaA : DrugRow := { identifier := "1", brand_name := "Para A" }

/-- Second drug row for the search witness. -/
def rowParaB : DrugRow := { identifier := "2", brand_name := "Para B" }

/-- Third drug row for the search witness. -/
def rowParaC : DrugRow := { identifier := "3", brand_name := "Parax" }

/-- The break-on-`limit` merge loop computes exactly "de-duplicate keeping
first occurrence, then truncate to `limit`", for every accumulator whose
length is still below `limit` and whose emitted identifiers are `seen`. -/
theorem mergeLoop_eq_dedupe_take (l : List DrugRow) :
    ∀ (results : List DrugRow) (limit : Nat), results.length < limit →
    mergeLoop l (results.map (fun r => r.identifier)) results limit =
      (results ++ dedupeByIdentifier (results.map (fun r => r.identifier)) l).take limit := by
  induction l with
  | nil =>
    intro results limit h
    simp [mergeLoop, dedupeByIdentifier, List.take_of_length_le (Nat.le_of_lt h)]
  | cons r rest ih =>
    intro results limit h
    by_cases hseen : r.identifier ∈ results.map (fun r => r.identifier)
    · simp only [mergeLoop, dedupeByIdentifier, if_pos hseen]
      exact ih results limit h
    · simp only [mergeLoop, dedupeByIdentifier, if_neg hseen]
      by_cases hlim : limit ≤ (results ++ [r]).length
      · have hlen : (results ++ [r]).length = results.length + 1 := by simp
        have hEq : limit = results.length + 1 := by omega
        rw [if_pos hlim, List.take_append_eq_append_take,
          List.take_of_length_le (Nat.le_of_lt h),
          (by omega : limit - results.length = 1)]
        simp
      · rw [if_neg hlim]
        have hlt : (results ++ [r]).length < limit := by
          simp at hlim ⊢; omega
        have hmap : (results ++ [r]).map (fun r => r.identifier) =
            results.map (fun r => r.identifier) ++ [r.identifier] := by simp
        have := ih (results ++ [r]) limit hlt
        rw [hmap] at this
        rw [this, ← List.append_cons]

/-- Claim C6: for every valid query (non-empty after trimming) and limit in
[1,25], the drug search result is the concatenation of the three passes —
token-AND included exactly when the trimmed query has at least two
whitespace tokens — de-duplicated by identifier keeping the first
occurrence and truncated to `limit`; in particular the result never exceeds
`limit` items. -/
theorem search_drugs_merges_dedupes_truncates :
    ∀ (q : String) (limit : Nat) (rows_token_and rows_contains rows_fuzzy : List DrugRow),
    1 ≤ limit → limit ≤ 25 → pyStrip q ≠ "" →
    search_drugs q limit rows_token_and rows_contains rows_fuzzy =
      .ok ((dedupeByIdentifier []
        ((if 2 ≤ (pySplit (pyStrip q)).length then rows_token_and else []) ++
          rows_contains ++ rows_fuzzy)).take limit) ∧
    (∀ res, search_drugs q limit rows_token_and rows_contains rows_fuzzy = .ok res →
      res.length ≤ limit) := by
  intro q limit ta con fuz h1 h25 hq
  have hmain :
      search_drugs q limit ta con fuz =
        .ok ((dedupeByIdentifier []
          ((if 2 ≤ (pySplit (pyStrip q)).length then ta else []) ++ con ++ fuz)).take limit) := by
    have hloop := mergeLoop_eq_dedupe_take
      ((if 2 ≤ (pySplit (pyStrip q)).length then ta else []) ++ con ++ fuz) [] limit
      (by simp only [List.length_nil]; omega)
    simp only [List.map_nil, List.nil_append] at hloop
    simp only [search_drugs, if_neg hq]
    rw [hloop]
  refine ⟨hmain, ?_⟩
  intro res hres
  rw [hmain] at hres
  cases hres
  rw [List.length_take]
  omega

/-- Witness for `search_drugs_merges_dedupes_truncates`: a two-token query
with overlapping pass results, at limit 10. -/
theorem search_drugs_merges_dedupes_truncates_witness :
    search_drugs " para x " 10 [rowParaA] [rowParaA, rowParaB] [rowParaC, rowParaB] =
      .ok ((dedupeByIdentifier []
        ((if 2 ≤ (pySplit (pyStrip " para x ")).length then [rowParaA] else []) ++
          [rowParaA, rowParaB] ++ [rowParaC, rowParaB])).take 10) :=
  (search_drugs_merges_dedupes_truncates " para x " 10 [rowParaA] [rowParaA, rowParaB]
    [rowParaC, rowParaB] (by decide) (by decide) (by decide)).1

/-- Lemma: `find?` commutes with a map that does not change the value of the
predicate. -/
theorem find?_map_congr {α : Type} (g : α → α) (p : α → Bool)
    (hg : ∀ a, p (g a) = p a) : ∀ l : List α, (l.map g).find? p = (l.find? p).map g := by
  intro l
  induction l with
  | nil => rfl
  | cons a t ih =>
    by_cases ha : p a = true
    · rw [List.map_cons, List.find?_cons_of_pos _ (by rw [hg]; exact ha),
        List.find?_cons_of_pos _ ha]
      rfl
    · rw [List.map_cons, List.find?_cons_of_neg _ (by rw [hg]; exact ha),
        List.find?_cons_of_neg _ ha, ih]

/-- Replacing every item sharing the key of `x` by `x` in a table where nothing
satisfies `p` makes `x` the `find?` hit, provided some item shares the key. -/
theorem find?_map_replace_of_any (x : Item) (p : Item → Bool) (hx : p x = true) :
    ∀ l : List Item, l.find? p = none → l.any (fun it => it.userId = x.userId) = true →
    (l.map (fun it => if it.userId = x.userId then x else it)).find? p = some x := by
  intro l
  induction l with
  | nil => intro _ hany; simp at hany
  | cons a t ih =>
    intro hnone hany
    have hpa : ¬ p a = true :=
      List.find?_eq_none.mp hnone a (List.mem_cons_self a t)
    have hnone2 : t.find? p = none := by
      rw [List.find?_cons_of_neg _ hpa] at hnone
      exact hnone
    rw [List.map_cons]
    by_cases ha : a.userId = x.userId
    · rw [if_pos ha]
      exact List.find?_cons_of_pos _ hx
    · rw [if_neg ha, List.find?_cons_of_neg _ hpa]
      refine ih hnone2 ?_
      simp only [List.any_cons, ha] at hany
      simpa using hany

/-- Inserting an item that satisfies `p` into a table where nothing satisfies
`p` makes it the unique `find?` hit, whether the key existed or not. -/
theorem find?_put_item_self (l : List Item) (x : Item) (p : Item → Bool)
    (hnone : l.find? p = none) (hx : p x = true) :
    (put_item l x).find? p = some x := by
  unfold put_item
  by_cases hany : l.any (fun it => it.userId = x.userId) = true
  · rw [if_pos hany]
    exact find?_map_replace_of_any x p hx l hnone hany
  · rw [if_neg hany, List.find?_append, hnone, Option.none_or]
    exact List.find?_cons_of_pos _ hx

/-- When the external subject already resolves to a user who already holds
the requested role, `db_find_or_create_user_by_cognito_sub` performs no
write at all: it returns the found user and leaves all three tables exactly
as they were. -/
theorem find_or_create_existing_role_noop (s : Db) (sub : String)
    (phone email : Option String) (role fid ts : String) (u : Item)
    (hfind : db_get_user_by_cognito_sub s.users sub = some u) (hrole : role ∈ u.roles) :
    db_find_or_create_user_by_cognito_sub s sub phone email role fid ts = .ok (u, s) := by
  unfold db_find_or_create_user_by_cognito_sub
  rw [hfind]
  simp [hrole]

/-- After any successful `db_find_or_create_user_by_cognito_sub` call, the
subject resolves to a stored user that holds the requested role. -/
theorem find_or_create_post_lookup (s : Db) (sub : String)
    (phone email : Option String) (role fid ts : String) (u1 : Item) (s1 : Db)
    (h : db_find_or_create_user_by_cognito_sub s sub phone email role fid ts = .ok (u1, s1)) :
    ∃ u2, db_get_user_by_cognito_sub s1.users sub = some u2 ∧ role ∈ u2.roles := by
  unfold db_find_or_create_user_by_cognito_sub at h
  rcases hfind : db_get_user_by_cognito_sub s.users sub with _ | u <;>
    rw [hfind] at h <;> simp only [] at h
  · -- new user branch
    have hnone : s.users.find? (fun it => it.cognitoSub = some sub) = none := hfind
    have key : ∀ s2 : Db,
        s2.users = put_item s.users (new_user_item sub phone email role fid ts) →
        ∃ u2, db_get_user_by_cognito_sub s2.users sub = some u2 ∧ role ∈ u2.roles := by
      intro s2 hs2
      refine ⟨new_user_item sub phone email role fid ts, ?_, ?_⟩
      · show s2.users.find? (fun it => it.cognitoSub = some sub) = _
        rw [hs2]
        exact find?_put_item_self s.users _ _ hnone (by simp [new_user_item])
      · show role ∈ (new_user_item sub phone email role fid ts).roles
        simp [new_user_item]
    split at h
    · -- role = "PATIENT"
      rw [Except.ok.injEq, Prod.mk.injEq] at h
      obtain ⟨h1, h2⟩ := h
      subst h2
      exact key _ rfl
    · split at h
      · -- role = "DOCTOR"
        rw [Except.ok.injEq, Prod.mk.injEq] at h
        obtain ⟨h1, h2⟩ := h
        subst h2
        exact key _ rfl
      · -- other role value
        rw [Except.ok.injEq, Prod.mk.injEq] at h
        obtain ⟨h1, h2⟩ := h
        subst h2
        exact key _ rfl
  · -- existing user branch
    have hmem : u ∈ s.users := List.mem_of_find?_eq_some hfind
    by_cases hrole : role ∈ u.roles
    · rw [if_pos hrole, Except.ok.injEq, Prod.mk.injEq] at h
      obtain ⟨h1, h2⟩ := h
      subst h1
      subst h2
      exact ⟨u, hfind, hrole⟩
    · rw [if_neg hrole] at h
      have hany : s.users.any (fun it => it.userId = u.userId) = true :=
        List.any_eq_true.mpr ⟨u, hmem, by simp⟩
      have key : ∀ s2 : Db,
          s2.users = update_item s.users u.userId (role_update (u.roles ++ [role]) ts) →
          ∃ u2, db_get_user_by_cognito_sub s2.users sub = some u2 ∧ role ∈ u2.roles := by
        intro s2 hs2
        have hg : ∀ it : Item,
            decide ((if it.userId = u.userId then
                role_update (u.roles ++ [role]) ts it else it).cognitoSub = some sub) =
            decide (it.cognitoSub = some sub) := by
          intro it
          by_cases hc : it.userId = u.userId <;> simp [hc, role_update]
        refine ⟨if u.userId = u.userId then role_update (u.roles ++ [role]) ts u else u,
          ?_, ?_⟩
        · show s2.users.find? (fun it => it.cognitoSub = some sub) = _
          rw [hs2]
          unfold update_item
          rw [if_pos hany, find?_map_congr _ _ hg s.users]
          rw [show s.users.find? (fun it => it.cognitoSub = some sub) = some u from hfind]
          rfl
        · rw [if_pos rfl]
          show role ∈ u.roles ++ [role]
          exact List.mem_append_right _ (List.mem_singleton_self role)
      split at h
      · -- role = "PATIENT": the conditional sub-profile put must have gone through
        split at h
        · rw [Except.ok.injEq, Prod.mk.injEq] at h
          obtain ⟨h1, h2⟩ := h
          subst h2
          exact key _ rfl
        · exact absurd h (by simp)
      · split at h
        · -- role = "DOCTOR"
          split at h
          · rw [Except.ok.injEq, Prod.mk.injEq] at h
            obtain ⟨h1, h2⟩ := h
            subst h2
            exact key _ rfl
          · exact absurd h (by simp)
        · -- other role value
          rw [Except.ok.injEq, Prod.mk.injEq] at h
          obtain ⟨h1, h2⟩ := h
          subst h2
          exact key _ rfl

/-- Claim C7: identity resolution is idempotent for an existing
(external_subject, role) pair.  If the subject already resolves to a user
holding the role, the call returns that user and changes no table — no role
is appended and no sub-profile row is created; consequently, after any
successful call, repeating it with the same subject and role leaves the
store exactly as the first call left it. -/
theorem find_or_create_idempotent :
    (∀ (s : Db) (sub : String) (phone email : Option String) (role fid ts : String) (u : Item),
      db_get_user_by_cognito_sub s.users sub = some u → role ∈ u.roles →
      db_find_or_create_user_by_cognito_sub s sub phone email role fid ts = .ok (u, s)) ∧
    (∀ (s : Db) (sub : String) (phone email : Option String)
        (role fid1 ts1 fid2 ts2 : String) (u1 : Item) (s1 : Db),
      db_find_or_create_user_by_cognito_sub s sub phone email role fid1 ts1 = .ok (u1, s1) →
      ∃ u2, db_find_or_create_user_by_cognito_sub s1 sub phone email role fid2 ts2 =
          .ok (u2, s1) ∧ role ∈ u2.roles) := by
  constructor
  · intro s sub phone email role fid ts u hfind hrole
    exact find_or_create_existing_role_noop s sub phone email role fid ts u hfind hrole
  · intro s sub phone email role fid1 ts1 fid2 ts2 u1 s1 h
    obtain ⟨u2, hl, hr⟩ := find_or_create_post_lookup s sub phone email role fid1 ts1 u1 s1 h
    exact ⟨u2, find_or_create_existing_role_noop s1 sub phone email role fid2 ts2 u2 hl hr, hr⟩

/-- Store for the C7 witness: a user who is already a PATIENT. -/
def dbExistingPatient : Db :=
  { users := [{ userId := "u3", cognitoSub := some "sub3", roles := ["PATIENT"] }]
    patients := [{ userId := "u3", status := some "PROFILE_INCOMPLETE" }]
    doctors := [] }

/-- The user record created by the from-scratch first call of the witness. -/
def userFresh2 : Item :=
  { userId := "fresh2", cognitoSub := some "sub9", phoneNumber := none, email := none,
    createdAt := some "T6", updatedAt := some "T6", roles := ["PATIENT"],
    firstName := none, middleName := none, lastName := none, abhaId := none }

/-- The store produced by the from-scratch first call of the witness. -/
def dbAfterFresh2 : Db :=
  { users := [userFresh2], patients := [incompleteProfileItem "fresh2" "T6"], doctors := [] }

/-- Witness for `find_or_create_idempotent`: a repeated PATIENT resolution
for an existing pair returns the stored user and leaves the store unchanged,
and a second call after a from-scratch first call leaves the resulting
store untouched. -/
theorem find_or_create_idempotent_witness :
    (db_find_or_create_user_by_cognito_sub dbExistingPatient "sub3" none none "PATIENT"
        "fresh1" "T5" =
      .ok ({ userId := "u3", cognitoSub := some "sub3", roles := ["PATIENT"] },
        dbExistingPatient)) ∧
    (∃ u2, db_find_or_create_user_by_cognito_sub dbAfterFresh2 "sub9" none none "PATIENT"
        "fresh3" "T7" = .ok (u2, dbAfterFresh2) ∧ "PATIENT" ∈ u2.roles) :=
  ⟨find_or_create_idempotent.1 dbExistingPatient "sub3" none none "PATIENT"
      "fresh1" "T5" _ rfl (by decide),
   find_or_create_idempotent.2 { users := [], patients := [], doctors := [] } "sub9"
      none none "PATIENT" "fresh2" "T6" "fresh3" "T7" userFresh2 dbAfterFresh2 rfl⟩

/-- Key-level shadow of `dictInsert`: a dict write adds the key at the end
when new and leaves the key sequence unchanged otherwise. -/
def insertKey (ks : List String) (k : String) : List String :=
  if k ∈ ks then ks else ks ++ [k]

/-- Lemma: `dictInsert` acts on identifiers exactly as `insertKey`. -/
theorem dictInsert_ids (acc : List Prescription) (p : Prescription) :
    (dictInsert acc p).map (fun q => q.prescriptionId) =
      insertKey (acc.map (fun q => q.prescriptionId)) p.prescriptionId := by
  unfold dictInsert insertKey
  have hmem : acc.any (fun q => q.prescriptionId = p.prescriptionId) = true ↔
      p.prescriptionId ∈ acc.map (fun q => q.prescriptionId) := by
    constructor
    · intro h
      obtain ⟨q, hq, hqe⟩ := List.any_eq_true.mp h
      exact List.mem_map.mpr ⟨q, hq, by simpa using hqe⟩
    · intro h
      obtain ⟨q, hq, hqe⟩ := List.mem_map.mp h
      exact List.any_eq_true.mpr ⟨q, hq, by simp [hqe]⟩
  by_cases hc : acc.any (fun q => q.prescriptionId = p.prescriptionId) = true
  · rw [if_pos hc, if_pos (hmem.mp hc), List.map_map]
    refine List.map_congr_left ?_
    intro q _
    by_cases hq : q.prescriptionId = p.prescriptionId
    · simp [hq]
    · simp [hq]
  · rw [if_neg hc, if_neg (fun hk => hc (hmem.mpr hk)), List.map_append]
    rfl

/-- Identifiers of the whole dict build are the `insertKey` fold of the
input identifiers. -/
theorem dictFold_ids (l : List Prescription) :
    ∀ acc, (l.foldl dictInsert acc).map (fun q => q.prescriptionId) =
      l.foldl (fun ks p => insertKey ks p.prescriptionId)
        (acc.map (fun q => q.prescriptionId)) := by
  induction l with
  | nil => intro acc; rfl
  | cons p t ih =>
    intro acc
    rw [List.foldl_cons, List.foldl_cons, ih, dictInsert_ids]

/-- Lemma: `insertKey` preserves key distinctness. -/
theorem insertKey_nodup (ks : List String) (k : String) (h : ks.Nodup) :
    (insertKey ks k).Nodup := by
  unfold insertKey
  by_cases hk : k ∈ ks
  · rwa [if_pos hk]
  · rw [if_neg hk]
    simp [List.nodup_append, h, hk]

/-- The `insertKey` fold yields distinct keys from any distinct start. -/
theorem foldKeys_nodup (l : List Prescription) :
    ∀ ks, ks.Nodup →
      (l.foldl (fun ks p => insertKey ks p.prescriptionId) ks).Nodup := by
  induction l with
  | nil => intro ks h; exact h
  | cons p t ih =>
    intro ks h
    exact ih _ (insertKey_nodup ks p.prescriptionId h)

/-- Lemma: `insertKey` keeps every key already present and adds the new one. -/
theorem mem_insertKey (ks : List String) (k k2 : String) :
    k ∈ ks ∨ k = k2 → k ∈ insertKey ks k2 := by
  intro h
  unfold insertKey
  by_cases hk : k2 ∈ ks
  · rcases h with h | h
    · rw [if_pos hk]; exact h
    · rw [if_pos hk]; exact h ▸ hk
  · rcases h with h | h
    · rw [if_neg hk]; exact List.mem_append_left _ h
    · rw [if_neg hk]; exact List.mem_append_right _ (h ▸ List.mem_singleton_self k2)

/-- Every input identifier survives the `insertKey` fold. -/
theorem mem_foldKeys (l : List Prescription) :
    ∀ ks k, (k ∈ ks ∨ k ∈ l.map (fun q => q.prescriptionId)) →
      k ∈ l.foldl (fun ks p => insertKey ks p.prescriptionId) ks := by
  induction l with
  | nil =>
    intro ks k h
    rcases h with h | h
    · exact h
    · simp at h
  | cons p t ih =>
    intro ks k h
    rw [List.foldl_cons]
    refine ih _ k ?_
    rcases h with h | h
    · exact Or.inl (mem_insertKey ks k p.prescriptionId (Or.inl h))
    · rw [List.map_cons, List.mem_cons] at h
      rcases h with h | h
      · exact Or.inl (mem_insertKey ks k p.prescriptionId (Or.inr h))
      · exact Or.inr h

/-- Claim C8: `list_prescriptions` never returns two entries with the same
prescription identifier, and a prescription whose doctorId and patientId
both equal the caller — fetched by both role queries — appears exactly once
in the merged result instead of being dropped. -/
theorem list_prescriptions_no_duplicates :
    (∀ (table : List Prescription) (users : List Item) (roles : List String) (uid : String),
      ((list_prescriptions table users roles uid).map (fun r => r.prescriptionId)).Nodup) ∧
    (∀ (table : List Prescription) (users : List Item) (roles : List String)
        (uid : String) (p : Prescription),
      p ∈ table → p.doctorId = uid → p.patientId = uid →
      "DOCTOR" ∈ roles → "PATIENT" ∈ roles →
      ((list_prescriptions table users roles uid).map (fun r => r.prescriptionId)).count
        p.prescriptionId = 1) := by
  have hids : ∀ (table : List Prescription) (users : List Item) (roles : List String)
      (uid : String),
      (list_prescriptions table users roles uid).map (fun r => r.prescriptionId) =
        ((if "DOCTOR" ∈ roles then table.filter (fun p => p.doctorId = uid) else []) ++
          (if "PATIENT" ∈ roles then table.filter (fun p => p.patientId = uid) else [])).foldl
          (fun ks p => insertKey ks p.prescriptionId) [] := by
    intro table users roles uid
    unfold list_prescriptions dictValues
    rw [List.map_map]
    have : ((fun r : PrescriptionResponse => r.prescriptionId) ∘ enrich users) =
        (fun q : Prescription => q.prescriptionId) := rfl
    rw [this, dictFold_ids]
    rfl
  constructor
  · intro table users roles uid
    rw [hids]
    exact foldKeys_nodup _ [] List.nodup_nil
  · intro table users roles uid p hmem hdoc hpat hD hP
    have hnodup := foldKeys_nodup
      ((if "DOCTOR" ∈ roles then table.filter (fun p => p.doctorId = uid) else []) ++
        (if "PATIENT" ∈ roles then table.filter (fun p => p.patientId = uid) else []))
      [] List.nodup_nil
    have hin : p.prescriptionId ∈
        ((if "DOCTOR" ∈ roles then table.filter (fun p => p.doctorId = uid) else []) ++
          (if "PATIENT" ∈ roles then table.filter (fun p => p.patientId = uid) else [])).foldl
          (fun ks p => insertKey ks p.prescriptionId) [] := by
      refine mem_foldKeys _ [] p.prescriptionId (Or.inr ?_)
      refine List.mem_map.mpr ⟨p, ?_, rfl⟩
      refine List.mem_append_left _ ?_
      rw [if_pos hD]
      exact List.mem_filter.mpr ⟨hmem, by simp [hdoc]⟩
    rw [hids]
    exact List.count_eq_one_of_mem hnodup hin

/-- A self-issued prescription: caller "u9" is both doctor and patient. -/
def rxSelf : Prescription :=
  { prescriptionId := "p9", patientId := "u9", doctorId := "u9",
    createdAt := "T0", expiresAt := "T9", status := "ACTIVE" }

/-- Witness for `list_prescriptions_no_duplicates`: a caller with both roles
listing a store holding their self-issued prescription sees its identifier
exactly once. -/
theorem list_prescriptions_no_duplicates_witness :
    ((list_prescriptions [rxSelf] [] ["DOCTOR", "PATIENT"] "u9").map
      (fun r => r.prescriptionId)).count "p9" = 1 :=
  list_prescriptions_no_duplicates.2 [rxSelf] [] ["DOCTOR", "PATIENT"] "u9" rxSelf
    (List.mem_singleton_self rxSelf) rfl rfl (by decide) (by decide)

/-- A medication dict submitted with surrounding whitespace on all four
coding fields. -/
def medPadded : MedicationItemDict :=
  { system := " http://snomed.info/sct ", code := some " 123 ",
    display := some " Y ", original_input := some " y ",
    dosage := "500mg", frequency := "1-0-1", duration := "5d" }

/-- Claim C9: prescription creation strips leading and trailing whitespace
from the supplied code, coding system, display and original_input before
the UNMAPPED/fallback normalization: whenever the supplied value is
non-blank, the stored value is its trimmed form; in particular a display
submitted as " Y " is stored as "Y", not byte-identical to the input. -/
theorem medication_fields_trimmed :
    (∀ (m : MedicationItemDict) (c : String), m.code = some c → pyStrip c ≠ "" →
      (normalize_medication m).code = pyStrip c) ∧
    (∀ m : MedicationItemDict, pyStrip m.system ≠ "" →
      (normalize_medication m).system = pyStrip m.system) ∧
    (∀ (m : MedicationItemDict) (d : String), m.display = some d → pyStrip d ≠ "" →
      (normalize_medication m).display = pyStrip d) ∧
    (∀ (m : MedicationItemDict) (o : String), m.original_input = some o → pyStrip o ≠ "" →
      (normalize_medication m).original_input = pyStrip o) ∧
    (normalize_medication medPadded).display = "Y" ∧ ("Y" : String) ≠ " Y " := by
  refine ⟨?_, ?_, ?_, ?_, by decide, by decide⟩
  · intro m c hc hne
    simp [normalize_medication, hc, hne]
  · intro m hne
    simp [normalize_medication, hne]
  · intro m d hd hne
    simp [normalize_medication, hd, hne]
  · intro m o ho hne
    simp [normalize_medication, ho, hne]

/-- Witness for `medication_fields_trimmed`: every rule applied at
`medPadded`, whose four fields are all padded and non-blank. -/
theorem medication_fields_trimmed_witness :
    (normalize_medication medPadded).code = pyStrip " 123 " ∧
    (normalize_medication medPadded).system = pyStrip medPadded.system ∧
    (normalize_medication medPadded).display = pyStrip " Y " ∧
    (normalize_medication medPadded).original_input = pyStrip " y " :=
  ⟨medication_fields_trimmed.1 medPadded " 123 " rfl (by decide),
   medication_fields_trimmed.2.1 medPadded (by decide),
   medication_fields_trimmed.2.2.1 medPadded " Y " rfl (by decide),
   medication_fields_trimmed.2.2.2.1 medPadded " y " rfl (by decide)⟩

end Aria
